import Mathlib

set_option maxRecDepth 4000

/-!
Shallow embedding of the ABS ECU daemon (`ParkingAssist/ABS_ECU/abs_ecu.c`):
frame codec (CRC8 and telemetry decode), braking decision engine, PWM
actuator lifecycle, and the control loop of `main`.  Machine integers are
modelled as `Nat`/`Int` with explicit reductions modulo `2^w` at the points
where the C code converts between integer types.
-/

namespace AbsEcu

/-- One shift-and-conditionally-xor round of the CRC8 inner loop
(`if (crc & 0x80) crc = (crc << 1) ^ 0x07; else crc <<= 1;`), with the
`uint8_t` truncation made explicit as `% 256`. -/
def crcRound (crc : Nat) : Nat :=
  if crc &&& 0x80 ≠ 0 then ((crc <<< 1) ^^^ 0x07) % 256 else (crc <<< 1) % 256

/-- Processing of one input byte by `crc8`: xor the byte into the
accumulator, then run the inner loop eight times. -/
def crcByte (crc b : Nat) : Nat :=
  crcRound^[8] ((crc ^^^ b) % 256)

/-- The CRC8 of `abs_ecu.c` (polynomial 0x07, MSB-first, initial value 0),
folded over a list of data bytes. -/
def crc8 (data : List Nat) : Nat :=
  data.foldl crcByte 0

/-- Decoded telemetry fields, as parsed by `main` after the CRC check:
`dist`, `counter`, `status`. -/
structure Telemetry where
  distance_mm : Nat
  counter : Nat
  status : Nat
deriving DecidableEq

/-- Telemetry decoding: `main` computes `crc8(data, 7)` and compares it with
`data[7]`; on a match it parses `dist = (data[0] << 8) | data[1]` (a
`uint16_t`, hence `% 65536`), `counter = data[2]`, `status = data[3]`.
Returns `none` on an integrity (CRC) mismatch. -/
def decode_telemetry (bytes : List Nat) : Option Telemetry :=
  if crc8 (bytes.take 7) = bytes.getD 7 0 then
    some ⟨((bytes.getD 0 0) <<< 8 ||| bytes.getD 1 0) % 65536,
          bytes.getD 2 0, bytes.getD 3 0⟩
  else
    none

/-- A braking command as computed by `main`: `brake_state` (modelled as a
`Bool`, the C code stores 0/1) and `brake_percent` (a `uint8_t`, always in
`[0,100]` here). -/
structure BrakingCommand where
  active : Bool
  percent : Nat
deriving DecidableEq

/-- Conversion of a C `int` to `uint16_t` (reduction modulo `2^16`), as in
the casts `(uint16_t)threshold_mm` and `(uint16_t)min_distance_mm`. -/
def u16 (x : Int) : Nat :=
  (x % 65536).toNat

/-- The clamping of the interpolation fraction in `main`:
`if (frac < 0.0) frac = 0.0; if (frac > 1.0) frac = 1.0;`. -/
def clamp01 (x : ℚ) : ℚ :=
  if x < 0 then 0 else if 1 < x then 1 else x

/-- The linear-interpolation branch of `main`:
`frac = (double)(threshold_mm - dist) / (double)(threshold_mm - min_distance_mm)`,
clamped to `[0,1]`, then `brake_percent = (uint8_t)(frac * 100.0 + 0.5)`.
The C `double` arithmetic is modelled by exact rational arithmetic; the
truncating `uint8_t` cast is `Int.floor` (the value is in `[0, 100.5]`, so
it is non-negative and needs no reduction modulo 256). -/
def interpPercent (threshold_mm min_distance_mm : Int) (dist : Nat) : Nat :=
  (⌊clamp01 (((threshold_mm - dist : Int) : ℚ) / ((threshold_mm - min_distance_mm : Int) : ℚ))
      * 100 + 1 / 2⌋).toNat

/-- The braking decision of `main` (lines 352–379): pure function of the
decoded distance and status and the configured thresholds.  `status != 0`
inhibits braking; otherwise `dist` is compared against the thresholds cast
to `uint16_t`, with linear interpolation strictly between them, and
`brake_state = (brake_percent > 0)`. -/
def decideBrake (threshold_mm min_distance_mm : Int) (dist status : Nat) : BrakingCommand :=
  if status ≠ 0 then
    ⟨false, 0⟩
  else if dist < u16 threshold_mm then
    let p : Nat :=
      if dist ≤ u16 min_distance_mm then 100
      else interpPercent threshold_mm min_distance_mm dist
    ⟨decide (0 < p), p⟩
  else
    ⟨false, 0⟩

/-- The braking decision as the specification words it (claim C1): raw
integer comparisons `distance_mm >= threshold_mm` / `distance_mm <=
min_distance_mm` (no 16-bit casts), and otherwise round-half-up of the
clamped fraction, with `active = (percent > 0)`. -/
def decideSpec (threshold_mm min_distance_mm : Int) (dist status : Nat) : BrakingCommand :=
  if status ≠ 0 then
    ⟨false, 0⟩
  else if (dist : Int) ≥ threshold_mm then
    ⟨false, 0⟩
  else if (dist : Int) ≤ min_distance_mm then
    ⟨true, 100⟩
  else
    let p := interpPercent threshold_mm min_distance_mm dist
    ⟨decide (0 < p), p⟩

/-- The mutable PWM bookkeeping globals of `abs_ecu.c`: `exported_by_us`
(whether this process wrote the `export` file) and `pwm_enabled`. -/
structure PwmState where
  exported_by_us : Bool
  pwm_enabled : Bool
deriving DecidableEq

/-- One fallible textual write to the PWM sysfs control surface, recorded as
an observable effect (the value written, where it matters). -/
inductive SysWrite where
  | exportW
  | unexportW
  | periodW (v : Nat)
  | dutyW (v : Nat)
  | enableW (v : Nat)
deriving DecidableEq

/-- Membership of `SysWrite` lists is decidable (used by concrete checks). -/
instance : DecidableEq (PwmState × List SysWrite) := inferInstance

/-- The function `pwm_set_enable`: writes `"1"`/`"0"` to the `enable` file;
on a successful write (`writeOk`) it records the new `pwm_enabled` flag. -/
def pwm_set_enable (writeOk : Bool) (e : Bool) (s : PwmState) : PwmState × List SysWrite :=
  (if writeOk then { s with pwm_enabled := e } else s,
   [SysWrite.enableW (if e then 1 else 0)])

/-- The function `pwm_cleanup_disable`: disables the PWM only when
`pwm_enabled` is set; otherwise performs no write. -/
def pwm_cleanup_disable (writeOk : Bool) (s : PwmState) : PwmState × List SysWrite :=
  if s.pwm_enabled then pwm_set_enable writeOk false s else (s, [])

/-- The function `pwm_cleanup_unexport`: writes the channel number to the
`unexport` file iff `exported_by_us` is set.  It does not modify any flag
(in particular it leaves `exported_by_us` set), and ignores the write's
result. -/
def pwm_cleanup_unexport (s : PwmState) : PwmState × List SysWrite :=
  if s.exported_by_us then (s, [SysWrite.unexportW]) else (s, [])

/-- The teardown sequence run at every cleanup site of `main`:
`pwm_cleanup_disable()` followed by `pwm_cleanup_unexport(...)`.
`writeOk` is whether the disable write succeeds. -/
def teardown (writeOk : Bool) (s : PwmState) : PwmState × List SysWrite :=
  let r1 := pwm_cleanup_disable writeOk s
  let r2 := pwm_cleanup_unexport r1.1
  (r2.1, r1.2 ++ r2.2)

/-- Environment of `pwm_ensure_exported`: whether the channel directory
already exists, whether the write to `export` succeeds, and whether the
channel directory appears within the 50-poll wait window. -/
structure ExportEnv where
  alreadyExported : Bool
  writeOk : Bool
  appears : Bool
deriving DecidableEq

/-- The function `pwm_ensure_exported` (lines 91–120): returns success,
the updated state, and the writes performed.  If the directory already
exists it is adopted without exporting; otherwise the `export` write is
attempted, `exported_by_us` is set right after a successful write, and the
function then polls for the directory, failing on timeout (with
`exported_by_us` left set). -/
def pwm_ensure_exported (env : ExportEnv) (s : PwmState) : Bool × PwmState × List SysWrite :=
  if env.alreadyExported then (true, s, [])
  else if ¬ env.writeOk then (false, s, [SysWrite.exportW])
  else if env.appears then (true, { s with exported_by_us := true }, [SysWrite.exportW])
  else (false, { s with exported_by_us := true }, [SysWrite.exportW])

/-- The `CAN_EFF_FLAG` bit of `<linux/can.h>`. -/
def CAN_EFF_FLAG : Nat := 0x80000000

/-- The `CAN_SFF_MASK` of `<linux/can.h>`. -/
def CAN_SFF_MASK : Nat := 0x7FF

/-- The ultrasonic telemetry CAN identifier (`ULTRASONIC_CAN_ID`). -/
def ULTRASONIC_CAN_ID : Nat := 0x100

/-- The brake status CAN identifier (`BRAKE_CAN_ID`). -/
def BRAKE_CAN_ID : Nat := 0x200

/-- A received CAN frame as `main` sees it: raw identifier word (flags
included), data length code, and payload bytes. -/
structure CanFrame where
  can_id : Nat
  can_dlc : Nat
  data : List Nat
deriving DecidableEq

/-- The payload of the brake status frame built by `can_send_brake`:
`data[0] = state ? 0x01 : 0x00; data[1] = percent;` — the percent byte is
stored verbatim (it is already a `uint8_t`, made explicit as `% 256`). -/
def can_send_brake_data (state percent : Nat) : List Nat :=
  [if state ≠ 0 then 1 else 0, percent % 256]

/-- The duty-cycle computation of `main`:
`duty_ns = ((unsigned long long)period_ns * brake_percent) / 100ULL`,
with the 64-bit product reduced modulo `2^64` (the final cast to
`unsigned long` is the identity for the resulting quotient on 64-bit). -/
def dutyNs (period_ns percent : Nat) : Nat :=
  (period_ns * percent % 2 ^ 64) / 100

/-- The run-time configuration resolved by the CLI layer: thresholds are C
`int`s, the period an `unsigned long`. -/
structure Config where
  threshold_mm : Int
  min_distance_mm : Int
  period_ns : Nat
deriving DecidableEq

/-- Result of one blocking `read` on the CAN socket, as `main` inspects it:
an error (with or without `errno == EINTR`), a partial read, or a full
frame. -/
inductive ReadResult where
  | readError (eintr : Bool)
  | shortRead
  | ok (f : CanFrame)
deriving DecidableEq

/-- Outcome of one iteration of the main loop: `brk` when the loop
terminates (fatal read error), or `cont` with the duty-cycle writes
performed and the CAN frames sent (identifier and payload) during the
iteration. -/
inductive BodyResult where
  | brk
  | cont (duties : List Nat) (sends : List (Nat × List Nat))
deriving DecidableEq

/-- One iteration of the main loop of `abs_ecu.c` (lines 313–390), given
the current `pwm_enabled` flag and the result of the blocking read:
fatal read errors break the loop, `EINTR` and partial reads are skipped,
frames failing the identifier/format filter are skipped, CRC-mismatched
frames force duty 0 (when enabled) plus a `{0,0}` status frame, and valid
frames run the braking decision, apply the duty cycle, and report it. -/
def loop_body (cfg : Config) (pwmEnabled : Bool) (r : ReadResult) : BodyResult :=
  match r with
  | .readError eintr => if eintr then .cont [] [] else .brk
  | .shortRead => .cont [] []
  | .ok f =>
    if f.can_id &&& CAN_EFF_FLAG ≠ 0 ∨ f.can_dlc ≠ 8 then .cont [] []
    else if f.can_id &&& CAN_SFF_MASK ≠ ULTRASONIC_CAN_ID then .cont [] []
    else if crc8 (f.data.take 7) ≠ f.data.getD 7 0 then
      .cont (if pwmEnabled then [0] else []) [(BRAKE_CAN_ID, can_send_brake_data 0 0)]
    else
      let dist := ((f.data.getD 0 0) <<< 8 ||| f.data.getD 1 0) % 65536
      let status := f.data.getD 3 0
      let cmd := decideBrake cfg.threshold_mm cfg.min_distance_mm dist status
      let duty := dutyNs cfg.period_ns cmd.percent
      .cont [duty] [(BRAKE_CAN_ID, can_send_brake_data (if cmd.active then 1 else 0) cmd.percent)]

/-- Whether the main loop, fed the given sequence of read results, ends by
`break` (a fatal read error) rather than by the cooperative stop flag
(modelled as the end of the sequence). -/
def loop_breaks (cfg : Config) (pwmEnabled : Bool) : List ReadResult → Bool
  | [] => false
  | r :: rs =>
    match loop_body cfg pwmEnabled r with
    | .brk => true
    | .cont _ _ => loop_breaks cfg pwmEnabled rs

/-- Environment of the setup phase of `main`: CLI parsing outcome and the
success of each fallible collaborator operation.  `argsOk` is whether no
unknown argument was seen (the `--help` early-exit path is not modelled);
`disable0Ok`/`enable1Ok` are the initial `pwm_set_enable(0)`/`(1)` writes,
`canOk` is `can_setup_socket`, and `disableCleanupOk` is the disable write
inside the cleanup run on the CAN-socket failure path. -/
structure SetupEnv where
  argsOk : Bool
  exportEnv : ExportEnv
  disable0Ok : Bool
  enable1Ok : Bool
  canOk : Bool
  disableCleanupOk : Bool
deriving DecidableEq

/-- The setup phase of `main` (lines 253–321), from argument validation up
to the top of the loop.  Returns `some code` when the process exits with
`code` before entering the loop, `none` when it reaches the loop, together
with the PWM bookkeeping state and the sysfs writes performed.  Failures of
the period/duty/enable writes are warn-only; a CAN-socket failure runs the
teardown sequence; an export failure returns 1 with no teardown. -/
def main_setup (cfg : Config) (env : SetupEnv) : Option Nat × PwmState × List SysWrite :=
  let s0 : PwmState := ⟨false, false⟩
  if ¬ env.argsOk then (some 1, s0, [])
  else if cfg.threshold_mm ≤ cfg.min_distance_mm then (some 1, s0, [])
  else
    let r1 := pwm_ensure_exported env.exportEnv s0
    if ¬ r1.1 then (some 1, r1.2.1, r1.2.2)
    else
      let r2 := pwm_set_enable env.disable0Ok false r1.2.1
      let w34 := [SysWrite.periodW cfg.period_ns, SysWrite.dutyW 0]
      let r5 := pwm_set_enable env.enable1Ok true r2.1
      if ¬ env.canOk then
        let r6 := teardown env.disableCleanupOk r5.1
        (some 1, r6.1, r1.2.2 ++ r2.2 ++ w34 ++ r5.2 ++ r6.2)
      else
        (none, r5.1, r1.2.2 ++ r2.2 ++ w34 ++ r5.2)

/-- The observable outcome of `main` for a given setup environment and
read-result trace: the process exit code, and whether the loop ended via a
fatal read error (`break`) rather than the cooperative stop flag.  After
the loop — however it ended — `main` runs the cleanup and returns 0. -/
def main_run (cfg : Config) (env : SetupEnv) (trace : List ReadResult) : Nat × Bool :=
  match main_setup cfg env with
  | (some code, _, _) => (code, false)
  | (none, st, _) => (0, loop_breaks cfg st.pwm_enabled trace)

end AbsEcu

namespace AbsEcu

/-- The clamped fraction is non-negative. -/
lemma clamp01_nonneg (x : ℚ) : 0 ≤ clamp01 x := by
  unfold clamp01
  split_ifs with h1 h2
  · exact le_refl 0
  · exact zero_le_one
  · exact le_of_not_lt h1

/-- The clamped fraction is at most one. -/
lemma clamp01_le_one (x : ℚ) : clamp01 x ≤ 1 := by
  unfold clamp01
  split_ifs with h1 h2
  · exact zero_le_one
  · exact le_refl 1
  · exact le_of_not_lt h2

/-- Clamping to `[0,1]` is monotone. -/
lemma clamp01_mono {x y : ℚ} (h : x ≤ y) : clamp01 x ≤ clamp01 y := by
  unfold clamp01
  split_ifs <;> linarith

/-- The rounded scaled fraction is at most 100, whatever the fraction. -/
lemma floor_percent_le_100 (x : ℚ) : (⌊clamp01 x * 100 + 1 / 2⌋).toNat ≤ 100 := by
  have h1 := clamp01_le_one x
  have h2 : ⌊clamp01 x * 100 + 1 / 2⌋ ≤ ⌊(201 / 2 : ℚ)⌋ :=
    Int.floor_le_floor (by linarith)
  have h3 : ⌊(201 / 2 : ℚ)⌋ = 100 := by norm_num
  exact Int.toNat_le.mpr (h2.trans h3.le)

/-- The rounded scaled fraction is monotone in the fraction. -/
lemma floor_percent_mono {x y : ℚ} (h : x ≤ y) :
    (⌊clamp01 x * 100 + 1 / 2⌋).toNat ≤ (⌊clamp01 y * 100 + 1 / 2⌋).toNat := by
  have h1 := clamp01_mono h
  exact Int.toNat_le_toNat (Int.floor_le_floor (by linarith))

/-- The interpolation percent never exceeds 100. -/
lemma interpPercent_le_100 (t m : Int) (d : Nat) : interpPercent t m d ≤ 100 :=
  floor_percent_le_100 _

/-- For a valid configuration (`m < t`), the interpolation percent is
non-increasing in the distance. -/
lemma interpPercent_anti {t m : Int} (hden : m < t) {d1 d2 : Nat} (h : d1 ≤ d2) :
    interpPercent t m d2 ≤ interpPercent t m d1 := by
  unfold interpPercent
  apply floor_percent_mono
  have hc : (0 : ℚ) < ((t - m : Int) : ℚ) := by
    rw [Int.cast_pos]
    omega
  have hnum : ((t - (d2 : Nat) : Int) : ℚ) ≤ ((t - (d1 : Nat) : Int) : ℚ) := by
    push_cast
    have hq : (d1 : ℚ) ≤ (d2 : ℚ) := by exact_mod_cast h
    linarith
  exact div_le_div_of_nonneg_right hnum hc.le

/-- The percent field of the braking decision, as a bare conditional. -/
lemma decideBrake_percent (t m : Int) (d s : Nat) :
    (decideBrake t m d s).percent =
      if s ≠ 0 then 0
      else if d < u16 t then
        (if d ≤ u16 m then 100 else interpPercent t m d)
      else 0 := by
  unfold decideBrake
  split_ifs <;> rfl

/-- C1, counterexample: the claim quantifies over every configuration with
`threshold_mm > min_distance_mm`, but the code compares the decoded
distance against `(uint16_t)threshold_mm`.  For `threshold_mm = 65836`
(which wraps to 300), `min = 50`, distance 300 and status OK, the claimed
function brakes at 100% while the code outputs `{active=false, percent=0}`. -/
theorem C1_counterexample :
    decideBrake 65836 50 300 0 = ⟨false, 0⟩ ∧
    decideSpec 65836 50 300 0 = ⟨true, 100⟩ ∧
    decideBrake 65836 50 300 0 ≠ decideSpec 65836 50 300 0 := by
  have h1 : decideBrake 65836 50 300 0 = ⟨false, 0⟩ := by
    norm_num [decideBrake, u16]
  have h2 : decideSpec 65836 50 300 0 = ⟨true, 100⟩ := by
    norm_num [decideSpec, interpPercent, clamp01]
    decide
  refine ⟨h1, h2, ?_⟩
  rw [h1, h2]
  decide

/-- C1 (amended): for every status byte, every 16-bit distance (the domain
of CRC-valid frames) and every configuration whose thresholds are
representable in the 16-bit distance domain (`0 ≤ min_distance_mm <
threshold_mm ≤ 65535`), the code's braking decision is exactly the claimed
pure function: `status ≠ OK → {false,0}`; `dist ≥ threshold → {false,0}`;
`dist ≤ min → {true,100}`; otherwise round-half-up of the clamped scaled
fraction with `active = (percent > 0)`; in particular the claim's example
table for `threshold=300, min=50` holds of the code. -/
theorem C1_decide_matches_spec (t m : Int) (d s : Nat)
    (h0 : 0 ≤ m) (hmt : m < t) (ht : t ≤ 65535) (hd : d < 65536) :
    decideBrake t m d s = decideSpec t m d s ∧
    decideBrake 300 50 400 0 = ⟨false, 0⟩ ∧
    decideBrake 300 50 50 0 = ⟨true, 100⟩ ∧
    decideBrake 300 50 25 0 = ⟨true, 100⟩ ∧
    decideBrake 300 50 175 0 = ⟨true, 50⟩ ∧
    decideBrake 300 50 10 1 = ⟨false, 0⟩ := by
  refine ⟨?_, by decide, by decide, by decide, ?_, by decide⟩
  case refine_2 =>
    norm_num [decideBrake, interpPercent, clamp01, u16]
    decide
  have hut : u16 t = t.toNat := by unfold u16; omega
  have hum : u16 m = m.toNat := by unfold u16; omega
  unfold decideBrake decideSpec
  rw [hut, hum]
  by_cases hs : s ≠ 0
  · simp [hs]
  · by_cases h1 : d < t.toNat
    · by_cases h2 : d ≤ m.toNat
      · have hge : ¬((d : Int) ≥ t) := by omega
        have hle : (d : Int) ≤ m := by omega
        simp [hs, h1, h2, hge, hle]
      · have hge : ¬((d : Int) ≥ t) := by omega
        have hle : ¬((d : Int) ≤ m) := by omega
        simp [hs, h1, h2, hge, hle]
    · have hge : (d : Int) ≥ t := by omega
      simp [hs, h1, hge]

/-- C1 witness: the amended equivalence at the spec's own example
configuration `threshold=300, min=50`, distance 175, status OK (where both
sides give `{true, 50}`). -/
theorem C1_decide_matches_spec_witness :
    (0 : Int) ≤ 50 ∧ (50 : Int) < 300 ∧ (300 : Int) ≤ 65535 ∧ 175 < 65536 ∧
    decideBrake 300 50 175 0 = decideSpec 300 50 175 0 :=
  ⟨by norm_num, by norm_num, by norm_num, by norm_num,
   (C1_decide_matches_spec 300 50 175 0 (by norm_num) (by norm_num) (by norm_num)
      (by norm_num)).1⟩

/-- C8: for every configuration with `threshold_mm > min_distance_mm`,
every distance and every status byte, the computed brake percent lies in
`[0, 100]`, and it is 0 whenever `status ≠ OK`, regardless of distance. -/
theorem C8_percent_bounds (t m : Int) (hmt : m < t) (d s : Nat) :
    (decideBrake t m d s).percent ≤ 100 ∧
    (s ≠ 0 → (decideBrake t m d s).percent = 0) := by
  rw [decideBrake_percent]
  constructor
  · split_ifs with h1 h2 h3
    · exact Nat.zero_le 100
    · exact le_refl 100
    · exact interpPercent_le_100 t m d
    · exact Nat.zero_le 100
  · intro hs
    simp [hs]

/-- C8 witness: the bounds at `threshold=300, min=50`, distance 10 with a
TIMEOUT status. -/
theorem C8_percent_bounds_witness :
    (50 : Int) < 300 ∧
    ((decideBrake 300 50 10 1).percent ≤ 100 ∧
     ((1 : Nat) ≠ 0 → (decideBrake 300 50 10 1).percent = 0)) :=
  ⟨by norm_num, C8_percent_bounds 300 50 (by norm_num) 10 1⟩

/-- C9: for status OK and any fixed configuration with
`threshold_mm > min_distance_mm`, the brake percent is non-increasing in
the distance: `d1 ≤ d2` implies `percent(d2) ≤ percent(d1)`. -/
theorem C9_percent_monotone (t m : Int) (hmt : m < t) (d1 d2 : Nat) (hd : d1 ≤ d2) :
    (decideBrake t m d2 0).percent ≤ (decideBrake t m d1 0).percent := by
  rw [decideBrake_percent, decideBrake_percent]
  simp only [ne_eq, not_true_eq_false, if_false]
  split_ifs <;>
    first
      | exact le_refl 100
      | exact interpPercent_le_100 t m d2
      | exact interpPercent_anti hmt hd
      | exact Nat.zero_le _
      | omega

/-- C9 witness: monotonicity at `threshold=300, min=50` between distances
175 and 280. -/
theorem C9_percent_monotone_witness :
    (50 : Int) < 300 ∧ 175 ≤ 280 ∧
    (decideBrake 300 50 280 0).percent ≤ (decideBrake 300 50 175 0).percent :=
  ⟨by norm_num, by norm_num, C9_percent_monotone 300 50 (by norm_num) 175 280 (by norm_num)⟩

/-- A big-endian byte pair fits in 16 bits. -/
lemma hi_lo_lt_65536 {b0 b1 : Nat} (h0 : b0 < 256) (h1 : b1 < 256) :
    (b0 <<< 8 ||| b1) < 65536 := by
  have e : b0 <<< 8 = b0 * 256 := by
    rw [Nat.shiftLeft_eq]
  have h16 : (65536 : Nat) = 2 ^ 16 := by norm_num
  rw [h16]
  refine Nat.or_lt_two_pow ?_ ?_
  · rw [e]; omega
  · omega

/-- C3: for every 8-byte input frame, `decode_telemetry` reports an
integrity error iff byte 7 differs from the CRC8 (poly 0x07, MSB-first,
init 0) of bytes 0..6; on success `distance_mm = (byte0 << 8) | byte1`,
`counter = byte2`, `status = byte3`. -/
theorem C3_decode_telemetry_correct (bytes : List Nat)
    (hlen : bytes.length = 8) (hbytes : ∀ b ∈ bytes, b < 256) :
    ((decode_telemetry bytes).isNone ↔ crc8 (bytes.take 7) ≠ bytes.getD 7 0) ∧
    (∀ tel, decode_telemetry bytes = some tel →
      tel.distance_mm = (bytes.getD 0 0) <<< 8 ||| bytes.getD 1 0 ∧
      tel.counter = bytes.getD 2 0 ∧
      tel.status = bytes.getD 3 0) := by
  constructor
  · unfold decode_telemetry
    split_ifs with h
    · exact iff_of_false (by simp) (not_not_intro h)
    · exact iff_of_true rfl h
  · intro tel htel
    unfold decode_telemetry at htel
    split_ifs at htel with h
    · have h0 : bytes.getD 0 0 < 256 := by
        rcases bytes with _ | ⟨x, xs⟩
        · simp at hlen
        · exact hbytes x (by simp)
      have h1 : bytes.getD 1 0 < 256 := by
        rcases bytes with _ | ⟨x, _ | ⟨y, ys⟩⟩
        · simp at hlen
        · simp at hlen
        · exact hbytes y (by simp)
      have hmod : ((bytes.getD 0 0) <<< 8 ||| bytes.getD 1 0) % 65536 =
          (bytes.getD 0 0) <<< 8 ||| bytes.getD 1 0 :=
        Nat.mod_eq_of_lt (hi_lo_lt_65536 h0 h1)
      obtain rfl := Option.some.inj htel.symm
      exact ⟨hmod.symm ▸ rfl, rfl, rfl⟩

/-- C3 witness: the spec's own vector (distance 150 mm): bytes
`[0x00, 0x96, 0x01, 0x00, 0x00, 0x00, 0x00]` with matching CRC byte 230
decode successfully to distance 150, counter 1, status 0. -/
theorem C3_decode_telemetry_correct_witness :
    (([0, 150, 1, 0, 0, 0, 0, 230] : List Nat).length = 8) ∧
    ((decode_telemetry [0, 150, 1, 0, 0, 0, 0, 230]).isNone ↔
      crc8 (([0, 150, 1, 0, 0, 0, 0, 230] : List Nat).take 7) ≠
        ([0, 150, 1, 0, 0, 0, 0, 230] : List Nat).getD 7 0) ∧
    decode_telemetry [0, 150, 1, 0, 0, 0, 0, 230] = some ⟨150, 1, 0⟩ :=
  ⟨by decide,
   (C3_decode_telemetry_correct [0, 150, 1, 0, 0, 0, 0, 230] (by decide) (by decide)).1,
   by decide⟩

/-- C2: a frame that passes the identifier/format filter but whose byte 7
differs from the CRC8 of bytes 0..6 makes the loop body force duty 0 (when
the actuator is enabled), emit the status frame `{active = 0, percent = 0}`
on the brake identifier, and continue (it never breaks the loop); the
output is the same for every payload, so it never depends on the (invalid)
decoded distance. -/
theorem C2_corrupt_frame_failsafe (cfg : Config) (en : Bool) (f : CanFrame)
    (h1 : f.can_id &&& CAN_EFF_FLAG = 0) (h2 : f.can_dlc = 8)
    (h3 : f.can_id &&& CAN_SFF_MASK = ULTRASONIC_CAN_ID)
    (h4 : crc8 (f.data.take 7) ≠ f.data.getD 7 0) :
    loop_body cfg en (.ok f) =
      .cont (if en then [0] else []) [(BRAKE_CAN_ID, [0, 0])] := by
  simp only [loop_body]
  rw [if_neg (not_or.mpr ⟨not_not_intro h1, not_not_intro h2⟩),
      if_neg (not_not_intro h3), if_pos h4]
  norm_num [can_send_brake_data]

/-- C2 witness: the all-zero payload with corrupted check byte 1 (the CRC
of seven zero bytes is 0), with the actuator enabled. -/
theorem C2_corrupt_frame_failsafe_witness :
    ((0x100 : Nat) &&& CAN_EFF_FLAG = 0 ∧
     crc8 (([0, 0, 0, 0, 0, 0, 0, 1] : List Nat).take 7) ≠
       ([0, 0, 0, 0, 0, 0, 0, 1] : List Nat).getD 7 0) ∧
    loop_body ⟨300, 50, 1000000⟩ true (.ok ⟨0x100, 8, [0, 0, 0, 0, 0, 0, 0, 1]⟩) =
      .cont [0] [(BRAKE_CAN_ID, [0, 0])] :=
  ⟨⟨by decide, by decide⟩,
   C2_corrupt_frame_failsafe ⟨300, 50, 1000000⟩ true ⟨0x100, 8, [0, 0, 0, 0, 0, 0, 0, 1]⟩
     (by decide) (by decide) (by decide) (by decide)⟩

/-- C10: two CRC-valid frames that pass the filter and agree on bytes 0, 1
(distance) and 3 (status) — but may differ arbitrarily in byte 2 (counter)
and bytes 4..6 (reserved) — produce the identical braking command and the
identical loop-body outcome (same applied duty and same emitted status
frame). -/
theorem C10_noninterference (cfg : Config) (en : Bool) (f g : CanFrame)
    (hfe : f.can_id &&& CAN_EFF_FLAG = 0) (hfd : f.can_dlc = 8)
    (hfs : f.can_id &&& CAN_SFF_MASK = ULTRASONIC_CAN_ID)
    (hfc : crc8 (f.data.take 7) = f.data.getD 7 0)
    (hge : g.can_id &&& CAN_EFF_FLAG = 0) (hgd : g.can_dlc = 8)
    (hgs : g.can_id &&& CAN_SFF_MASK = ULTRASONIC_CAN_ID)
    (hgc : crc8 (g.data.take 7) = g.data.getD 7 0)
    (h0 : f.data.getD 0 0 = g.data.getD 0 0)
    (h1 : f.data.getD 1 0 = g.data.getD 1 0)
    (h3 : f.data.getD 3 0 = g.data.getD 3 0) :
    decideBrake cfg.threshold_mm cfg.min_distance_mm
        (((f.data.getD 0 0) <<< 8 ||| f.data.getD 1 0) % 65536) (f.data.getD 3 0) =
      decideBrake cfg.threshold_mm cfg.min_distance_mm
        (((g.data.getD 0 0) <<< 8 ||| g.data.getD 1 0) % 65536) (g.data.getD 3 0) ∧
    loop_body cfg en (.ok f) = loop_body cfg en (.ok g) := by
  constructor
  · rw [h0, h1, h3]
  · simp only [loop_body]
    rw [if_neg (not_or.mpr ⟨not_not_intro hfe, not_not_intro hfd⟩),
        if_neg (not_not_intro hfs), if_neg (not_not_intro hfc),
        if_neg (not_or.mpr ⟨not_not_intro hge, not_not_intro hgd⟩),
        if_neg (not_not_intro hgs), if_neg (not_not_intro hgc),
        h0, h1, h3]

/-- C4 (code bug): on the export-timeout setup path — the write to the
`export` file succeeds but the channel directory never appears within the
poll window — the process exits 1 before the loop with `exported_by_us`
still set and with no `unexport` write ever performed: the export this
process created is leaked, against the claim (and against the source's own
header comment, "Cleans up PWM on exit"). -/
theorem C4_export_timeout_leak :
    (main_setup ⟨300, 50, 1000000⟩
        ⟨true, ⟨false, true, false⟩, true, true, true, true⟩).1 = some 1 ∧
    (main_setup ⟨300, 50, 1000000⟩
        ⟨true, ⟨false, true, false⟩, true, true, true, true⟩).2.1.exported_by_us = true ∧
    SysWrite.unexportW ∉
      (main_setup ⟨300, 50, 1000000⟩
        ⟨true, ⟨false, true, false⟩, true, true, true, true⟩).2.2 := by
  decide

/-- C5, counterexample: with a successful setup, a trace consisting of one
fatal (non-`EINTR`) transport read error makes the loop terminate via
`break`, yet the process exit code is 0 — the claim says a fatal transport
receive error yields a non-zero exit code. -/
theorem C5_counterexample :
    main_run ⟨300, 50, 1000000⟩ ⟨true, ⟨true, true, true⟩, true, true, true, true⟩
      [ReadResult.readError false] = (0, true) := by
  decide

/-- C5 (amended): the process exit code is 0 iff setup succeeds (arguments
parse, `threshold_mm > min_distance_mm`, the PWM export succeeds, the CAN
socket opens); once the loop is entered, `main` returns 0 regardless of
whether the loop ended via the cooperative stop flag or via a fatal
transport receive error. -/
theorem C5_exit_zero_iff_setup_ok (cfg : Config) (env : SetupEnv) (trace : List ReadResult) :
    (main_run cfg env trace).1 = 0 ↔
      (env.argsOk = true ∧ cfg.min_distance_mm < cfg.threshold_mm ∧
       (env.exportEnv.alreadyExported = true ∨
        (env.exportEnv.writeOk = true ∧ env.exportEnv.appears = true)) ∧
       env.canOk = true) := by
  obtain ⟨a, ⟨ae, aw, ap⟩, d0, e1, c, dc⟩ := env
  cases a <;> cases ae <;> cases aw <;> cases ap <;> cases c <;>
    by_cases h : cfg.threshold_mm ≤ cfg.min_distance_mm <;>
      simp [main_run, main_setup, pwm_ensure_exported, pwm_set_enable, teardown,
            pwm_cleanup_disable, pwm_cleanup_unexport, h] <;>
        omega

/-- C6, counterexample: running the teardown sequence a second time from
the torn-down state performs a second unexport write attempt — teardown
never clears `exported_by_us`, so the second run writes to `unexport`
again, contrary to the claim's "no second unexport attempt". -/
theorem C6_counterexample :
    (teardown true ⟨true, true⟩).2 = [SysWrite.enableW 0, SysWrite.unexportW] ∧
    (teardown true (teardown true ⟨true, true⟩).1).2 = [SysWrite.unexportW] := by
  decide

/-- C6 (amended): running the teardown a second time from the torn-down
state reproduces the same terminal state and performs no second disable
write, but it re-attempts the unexport write whenever the session owned
the export, because `pwm_cleanup_unexport` never clears `exported_by_us`.
(The hypothesis: the first run's disable write succeeded, or nothing was
enabled.) -/
theorem C6_teardown_second_run (s : PwmState) (ok1 ok2 : Bool)
    (h : s.pwm_enabled = false ∨ ok1 = true) :
    (teardown ok2 (teardown ok1 s).1).1 = (teardown ok1 s).1 ∧
    (teardown ok2 (teardown ok1 s).1).2 =
      (if s.exported_by_us then [SysWrite.unexportW] else []) := by
  obtain ⟨e, p⟩ := s
  cases ok1 <;> cases p <;> cases e <;>
    simp_all [teardown, pwm_cleanup_disable, pwm_cleanup_unexport, pwm_set_enable]

/-- C6 witness: the second teardown from the state reached after tearing
down an enabled, process-exported session. -/
theorem C6_teardown_second_run_witness :
    ((⟨true, true⟩ : PwmState).pwm_enabled = false ∨ true = true) ∧
    ((teardown true (teardown true ⟨true, true⟩).1).1 = (teardown true ⟨true, true⟩).1 ∧
     (teardown true (teardown true ⟨true, true⟩).1).2 =
       (if (⟨true, true⟩ : PwmState).exported_by_us then [SysWrite.unexportW] else [])) :=
  ⟨Or.inr rfl, C6_teardown_second_run ⟨true, true⟩ true true (Or.inr rfl)⟩

/-- C7, counterexample: `can_send_brake` does not clamp the percent byte —
for input percent 150 the emitted byte 1 is 150, not the claimed clamped
value 100. -/
theorem C7_counterexample :
    can_send_brake_data 1 150 = [1, 150] ∧
    (can_send_brake_data 1 150).getD 1 0 ≠ 100 := by
  decide

/-- C7 (amended): the status frame has `byte0 = 1` iff `state ≠ 0` and 0
otherwise, and `byte1 = percent` unmodified — there is no clamping; for
the percents the loop actually produces (`percent ≤ 100`, claim C8's
invariant) the emitted byte 1 is within `[0, 100]`. -/
theorem C7_status_frame_bytes (state percent : Nat) (h : percent ≤ 100) :
    can_send_brake_data state percent = [if state ≠ 0 then 1 else 0, percent] ∧
    (can_send_brake_data state percent).getD 1 0 ≤ 100 := by
  have hm : percent % 256 = percent := Nat.mod_eq_of_lt (by omega)
  unfold can_send_brake_data
  rw [hm]
  exact ⟨rfl, by simpa using h⟩

/-- C7 witness: the frame bytes at `state = 1`, `percent = 75`. -/
theorem C7_status_frame_bytes_witness :
    (75 : Nat) ≤ 100 ∧
    (can_send_brake_data 1 75 = [if (1 : Nat) ≠ 0 then 1 else 0, 75] ∧
     (can_send_brake_data 1 75).getD 1 0 ≤ 100) :=
  ⟨by decide, C7_status_frame_bytes 1 75 (by decide)⟩

/-- C10 witness: two valid frames at distance 175 and status OK, one with
counter 9 and zero reserved bytes, the other with counter 10 and reserved
bytes 1, 2, 3 (and accordingly different CRC bytes). -/
theorem C10_noninterference_witness :
    (crc8 (([0, 175, 9, 0, 0, 0, 0, 60] : List Nat).take 7) =
       ([0, 175, 9, 0, 0, 0, 0, 60] : List Nat).getD 7 0 ∧
     crc8 (([0, 175, 10, 0, 1, 2, 3, 210] : List Nat).take 7) =
       ([0, 175, 10, 0, 1, 2, 3, 210] : List Nat).getD 7 0) ∧
    loop_body ⟨300, 50, 1000000⟩ true (.ok ⟨0x100, 8, [0, 175, 9, 0, 0, 0, 0, 60]⟩) =
      loop_body ⟨300, 50, 1000000⟩ true (.ok ⟨0x100, 8, [0, 175, 10, 0, 1, 2, 3, 210]⟩) :=
  ⟨⟨by decide, by decide⟩,
   (C10_noninterference ⟨300, 50, 1000000⟩ true
      ⟨0x100, 8, [0, 175, 9, 0, 0, 0, 0, 60]⟩ ⟨0x100, 8, [0, 175, 10, 0, 1, 2, 3, 210]⟩
      (by decide) (by decide) (by decide) (by decide)
      (by decide) (by decide) (by decide) (by decide)
      (by decide) (by decide) (by decide)).2⟩

end AbsEcu
